import Mathlib

/-!
Verification of the polymorphic command dispatcher of `app/api/rest_api.py`
(`RestApi.rest_core`).

The dispatcher is embedded shallowly:

* JSON bodies are association lists `Dict := List (String × Val)`, with the
  lookup / pop / merge operations of Python dicts (`dget`, `derase`, `dmerge`).
* The per-request `options` dict built inside `rest_core` becomes
  `options : Dict → Method → Option (List (String × Handler × Adapter))`.
  Each lambda of the source is split into the identity of the underlying
  `rest_svc` operation (`Handler`) plus the shape of the lambda (`Adapter`):
  `plain` for `lambda d: svc.op(d)`, `withAccess` for `lambda d: svc.op(access, d)`,
  `loadLink` for `lambda d: svc.apply_potential_link(Link.load(d))` and
  `kwargs` for `lambda d: svc.op(**d)`.  The source closes the lambdas over
  the per-request `access` dict; here the table keeps the access dict as an
  (unused) parameter and `runAdapter` supplies it at call time, so that the
  table content built for one request can be compared with another request's.
* The bodies of the `rest_svc` coroutines, `Link.load` and
  `rest_svc.display_objects` are external to the file under analysis; they are
  abstracted into a `Services` record of oracles.  The required keyword
  parameters of the `**d`-unpacked coroutines are likewise abstract
  (`Services.req`); Python guarantees a `TypeError` when a required keyword
  argument is absent from `d`, independently of the coroutine body, and
  `runAdapter` reflects exactly that.
* The `try` block of `rest_core` is `tryBody`; it returns the raised
  exception or the value to serialize, together with the list of observable
  events (which registered lambda was applied, or which fallback query was
  issued).  `rest_core` itself adds the two `except` clauses:
  `ma.ValidationError` becomes `Outcome.badRequest e.messages`
  (`web.HTTPBadRequest` with `json.dumps(e.messages)`), and any other
  exception becomes `Outcome.loggedNoBody` (`self.log.error(...)`, handler
  falls off the end returning no response).

The runtime behavior of the decorators `@check_authorization` and
`@request_schema(PolymorphicSchema(...))` lives in `app/service/auth_svc.py`
and `app/utility/apispec_utils.py`, which are not part of the analyzed
sources; those two stages are modelled from the specification
(`decodeCoreRequest`, `dispatch`), as is the scope-filtered query service
behind `rest_svc.display_objects` (`display_objects`).
-/

namespace Caldera

/-- JSON-ish values appearing in request bodies and search criteria: opaque
scalar fields, or a tuple of permission tags (the shape of the server-derived
`access` value `tuple(await self.auth_svc.get_permissions(request))`). -/
inductive Val where
  | str (s : String)
  | tags (ts : List String)
deriving DecidableEq

/-- A Python dict with string keys, as an association list (first hit wins). -/
abbrev Dict := List (String × Val)

/-- Per-field validation messages: the shape of `ma.ValidationError.messages`,
a map from field name to the list of reasons. -/
abbrev Msgs := List (String × List String)

/-- The exceptions that can cross the `try` block of `rest_core`. -/
inductive Exc where
  | validationError (msgs : Msgs)
  | keyError (k : String)
  | typeError
  | other
deriving DecidableEq

/-- HTTP verbs reaching `/api/rest` (`add_route('*', '/api/rest', ...)`). -/
inductive Method where
  | GET
  | DELETE
  | PUT
  | POST
deriving DecidableEq

/-- String form of the verb, as `request.method` appears in a `KeyError`. -/
def methodName : Method → String
  | Method.GET => "GET"
  | Method.DELETE => "DELETE"
  | Method.PUT => "PUT"
  | Method.POST => "POST"

/-- Identities of the `rest_svc` operations wrapped by the lambdas of the
`options` dict in `rest_core`. -/
inductive Handler where
  | delete_agent
  | delete_operation
  | delete_ability
  | delete_adversary
  | persist_adversary
  | persist_ability
  | persist_source
  | update_planner
  | update_agent_data
  | update_chain_data
  | create_operation
  | create_schedule
  | apply_potential_link
  | display_operation_report
  | display_result
  | download_contact_report
  | update_config
  | get_potential_links
  | update_operation
  | task_agent_with_ability
deriving DecidableEq

/-- Shape of the lambda a table entry registers (see module docstring). -/
inductive Adapter where
  | plain
  | withAccess
  | loadLink
  | kwargs
deriving DecidableEq

/-- Dict lookup, `d[k]` / `k in d` combined: first entry with the key. -/
def dget : Dict → String → Option Val
  | [], _ => none
  | (k1, v1) :: t, k => if k1 = k then some v1 else dget t k

/-- Removal of a key, the effect of `data.pop(k)` on the dict. -/
def derase : Dict → String → Dict
  | [], _ => []
  | (k1, v1) :: t, k => if k1 = k then derase t k else (k1, v1) :: derase t k

/-- Python dict merge `{**d1, **d2}`: both key sets, `d2` overriding `d1`. -/
def dmerge (d1 d2 : Dict) : Dict :=
  d1.filter (fun p => (dget d2 p.1).isNone) ++ d2

/-- The per-request access dict `dict(access=tuple(...permissions...))`. -/
def accessDict (perms : List String) : Dict :=
  [("access", Val.tags perms)]

/-- Entries of `options['DELETE']` in `rest_core`. -/
def deleteTable : List (String × Handler × Adapter) :=
  [("agents", (Handler.delete_agent, Adapter.plain)),
   ("operations", (Handler.delete_operation, Adapter.plain)),
   ("abilities", (Handler.delete_ability, Adapter.plain)),
   ("adversaries", (Handler.delete_adversary, Adapter.plain))]

/-- Entries of `options['PUT']` in `rest_core`. -/
def putTable : List (String × Handler × Adapter) :=
  [("adversaries", (Handler.persist_adversary, Adapter.plain)),
   ("abilities", (Handler.persist_ability, Adapter.plain)),
   ("sources", (Handler.persist_source, Adapter.plain)),
   ("planners", (Handler.update_planner, Adapter.plain)),
   ("agents", (Handler.update_agent_data, Adapter.plain)),
   ("chain", (Handler.update_chain_data, Adapter.plain)),
   ("operations", (Handler.create_operation, Adapter.withAccess)),
   ("schedule", (Handler.create_schedule, Adapter.withAccess)),
   ("link", (Handler.apply_potential_link, Adapter.loadLink))]

/-- Entries of `options['POST']` in `rest_core`. -/
def postTable : List (String × Handler × Adapter) :=
  [("operation_report", (Handler.display_operation_report, Adapter.plain)),
   ("result", (Handler.display_result, Adapter.plain)),
   ("contact", (Handler.download_contact_report, Adapter.plain)),
   ("configuration", (Handler.update_config, Adapter.plain)),
   ("link", (Handler.get_potential_links, Adapter.kwargs)),
   ("operation", (Handler.update_operation, Adapter.kwargs)),
   ("task", (Handler.task_agent_with_ability, Adapter.kwargs))]

/-- The `options` dict built inside `rest_core` on every request: keyed by the
verbs `DELETE`, `PUT` and `POST` only.  The source closes its lambdas over the
per-request `access` dict; that dict is kept here as an explicit parameter
(used only at call time through `runAdapter`) so that the tables built for
different requests can be compared. -/
def options (_access : Dict) : Method → Option (List (String × Handler × Adapter))
  | Method.GET => none
  | Method.DELETE => some deleteTable
  | Method.PUT => some putTable
  | Method.POST => some postTable

/-- Lookup of the discriminator among the keys of `options[method]`:
`index not in options[request.method]` followed by
`options[request.method][index]`. -/
def assocLookup : List (String × Handler × Adapter) → String → Option (Handler × Adapter)
  | [], _ => none
  | (k, ha) :: t, s => if k = s then some ha else assocLookup t s

/-- Oracles for the collaborators `rest_core` calls but whose bodies live in
other modules: the `rest_svc` coroutines (`exec`, and `execAccess` for the two
lambdas that also pass the closed-over `access` dict), `Link.load`
(`linkLoad`, failing with a marshmallow `ValidationError`), the required
keyword parameters of the `**d`-unpacked coroutines (`req`), and
`rest_svc.display_objects` (`display`). -/
structure Services where
  exec : Handler → Dict → Except Exc Val
  execAccess : Handler → Dict → Dict → Except Exc Val
  linkLoad : Dict → Except Msgs Dict
  req : Handler → List String
  display : Val → Dict → Except Exc Val

/-- Observable events of one pass through the dispatcher: the decode stage ran,
a registered lambda was applied to the popped payload, or the fallback query
`rest_svc.display_objects(index, search)` was issued. -/
inductive Ev where
  | decodeAttempted
  | handlerCalled (h : Handler) (d : Dict)
  | fallbackCalled (index : Val) (search : Dict)
deriving DecidableEq

/-- What `rest_core` produces: a serialized result (`web.json_response`), an
`HTTPBadRequest` whose JSON body is exactly `e.messages`, or the logged-and-
swallowed path of the final `except Exception` clause, which returns no
response body at all. -/
inductive Outcome where
  | jsonResp (v : Val)
  | badRequest (msgs : Msgs)
  | loggedNoBody (e : Exc)
deriving DecidableEq

/-- Application of one registered lambda to the popped payload `d`.
`plain`: `svc.op(d)`.  `withAccess`: `svc.op(access, d)`.
`loadLink`: `svc.apply_potential_link(Link.load(d))`, where `Link.load` may
raise `ma.ValidationError`.  `kwargs`: `svc.op(**d)`, where Python raises
`TypeError` before entering the coroutine if a required keyword parameter is
missing from `d` (the modelling covers required-parameter omission; a
`TypeError` from an unexpected key is not modelled, the signatures being
outside the analyzed sources). -/
def runAdapter (S : Services) (access : Dict) (h : Handler) (a : Adapter) (d : Dict) :
    Except Exc Val :=
  match a with
  | Adapter.plain => S.exec h d
  | Adapter.withAccess => S.execAccess h access d
  | Adapter.loadLink =>
      match S.linkLoad d with
      | Except.error msgs => Except.error (Exc.validationError msgs)
      | Except.ok obj => S.exec h obj
  | Adapter.kwargs =>
      if (S.req h).any (fun q => (dget d q).isNone) then Except.error Exc.typeError
      else S.exec h d

/-- Routing step of `rest_core` once `options[request.method]` succeeded:
`if index not in options[request.method]: ... display_objects(index, search)`
else `options[request.method][index](data)`.  A non-string discriminator is
unhashable in the membership test and raises `TypeError`. -/
def routeAndRun (S : Services) (access : Dict) (tbl : List (String × Handler × Adapter))
    (index : Val) (data : Dict) : Except Exc Val × List Ev :=
  match index with
  | Val.tags _ => (Except.error Exc.typeError, [])
  | Val.str s =>
      match assocLookup tbl s with
      | none =>
          (S.display (Val.str s) (dmerge data access),
           [Ev.fallbackCalled (Val.str s) (dmerge data access)])
      | some (h, a) => (runAdapter S access h a data, [Ev.handlerCalled h data])

/-- The `try` block of `rest_core` on an already-parsed JSON body:
`index = data.pop('index')` (a `KeyError` when the field is absent), then
`options[request.method]` (a `KeyError` when the verb is not a key of
`options` — in particular for every `GET`), then the routing step. -/
def tryBody (S : Services) (method : Method) (body : Dict) (perms : List String) :
    Except Exc Val × List Ev :=
  match dget body "index" with
  | none => (Except.error (Exc.keyError "index"), [])
  | some index =>
      match options (accessDict perms) method with
      | none => (Except.error (Exc.keyError (methodName method)), [])
      | some tbl => routeAndRun S (accessDict perms) tbl index (derase body "index")

/-- `rest_core` with its two `except` clauses: `ma.ValidationError` is turned
into `HTTPBadRequest` carrying exactly `e.messages`; every other exception is
logged (`self.log.error(repr(e), exc_info=True)`) and the coroutine returns
without producing a response body. -/
def rest_core (S : Services) (method : Method) (body : Dict) (perms : List String) :
    Outcome × List Ev :=
  match tryBody S method body perms with
  | (Except.ok v, evs) => (Outcome.jsonResp v, evs)
  | (Except.error (Exc.validationError msgs), evs) => (Outcome.badRequest msgs, evs)
  | (Except.error e, evs) => (Outcome.loggedNoBody e, evs)

/-- Keys of the `PolymorphicSchema` mapping shared by the `@request_schema`
and `@response_schema` decorators on `rest_core`:
`dict(adversaries=Adversary, operations=Operation, agents=Agent,
abilities=Ability, sources=Source, planners=Planner, links=Link)`. -/
def coreRequestMapping : List String :=
  ["adversaries", "operations", "agents", "abilities", "sources", "planners", "links"]

/-- Reason attached to the discriminator field when it is absent. -/
def missingIndexMsg : String := "Missing data for required field."

/-- Reason attached to the discriminator field when its value is not a key of
the active schema mapping. -/
def unknownIndexMsg : String := "Discriminator value is not a key of the schema mapping."

/-- Modelled from the spec: the decode half of the Discriminated Schema Codec
(`@request_schema(PolymorphicSchema(name='CoreRequest', discriminator='index',
mapping=...))`), whose runtime enforcement lives in
`app/utility/apispec_utils.py`, outside the analyzed sources.  Per the spec it
extracts the discriminator field; if absent or not present as a key in the
schema mapping it fails with a `SchemaValidationError` carrying
`(field, [reason])` detail; otherwise it validates the remaining fields
against the schema selected by the discriminator (abstracted here into the
`validate` oracle, returning the per-field violations if any). -/
def decodeCoreRequest (validate : String → Dict → Option Msgs) (body : Dict) : Option Msgs :=
  match dget body "index" with
  | none => some [("index", [missingIndexMsg])]
  | some (Val.str s) =>
      if coreRequestMapping.contains s then validate s body
      else some [("index", [unknownIndexMsg])]
  | some (Val.tags _) => some [("index", [unknownIndexMsg])]

/-- Outcome of the full per-request pipeline around `rest_core`. -/
inductive PipeOutcome where
  | unauthorized
  | validationFailed (msgs : Msgs)
  | core (o : Outcome)
deriving DecidableEq

/-- Modelled from the spec: the per-request pipeline formed by the decorators
on `rest_core` — `@check_authorization` (in `app/service/auth_svc.py`, outside
the analyzed sources; per the spec it fails with a 401 before any decoding
when credentials are missing or invalid, short-circuiting the dispatch) and
the schema decode stage above — followed by the `rest_core` body itself.
`auth` is `none` when the caller's credentials are missing or invalid, and
`some perms` (the Access Scope) otherwise; a decode failure is surfaced as an
HTTP 400 whose JSON body is the per-field detail. -/
def dispatch (S : Services) (validate : String → Dict → Option Msgs)
    (auth : Option (List String)) (method : Method) (body : Dict) :
    PipeOutcome × List Ev :=
  match auth with
  | none => (PipeOutcome.unauthorized, [])
  | some perms =>
      match decodeCoreRequest validate body with
      | some msgs => (PipeOutcome.validationFailed msgs, [Ev.decodeAttempted])
      | none =>
          (PipeOutcome.core (rest_core S method body perms).1,
           Ev.decodeAttempted :: (rest_core S method body perms).2)

/-- An entity held by the backing store, as the Fallback Query Resolver sees
it: its kind (discriminator value), its permission tags, and its fields. -/
structure Entity where
  kind : String
  access : List String
  fields : Dict
deriving DecidableEq

/-- An entity is visible under a scope when its permission tags intersect it. -/
def visibleTo (e : Entity) (scope : List String) : Bool :=
  e.access.any (fun t => decide (t ∈ scope))

/-- One search criterion against an entity: the `access` criterion matches by
tag intersection, every other field by equality. -/
def matchOne (e : Entity) (k : String) (v : Val) : Bool :=
  if k = "access" then
    match v with
    | Val.tags ts => visibleTo e ts
    | Val.str _ => false
  else decide (dget e.fields k = some v)

/-- An entity matches a search dict when it matches every criterion in it. -/
def entityMatches (e : Entity) (search : Dict) : Bool :=
  search.all (fun kv => matchOne e kv.1 kv.2)

/-- Modelled from the spec: `rest_svc.display_objects(index, search)`, the
Fallback Query Resolver (its body lives in `app/service/rest_svc.py`, outside
the analyzed sources).  Per the spec it is a generic scope-filtered listing:
it returns the stored entities of the requested kind matching every search
criterion, the merged-in `access` criterion restricting results to entities
visible under the caller's Access Scope. -/
def display_objects (store : List Entity) (kind : String) (search : Dict) : List Entity :=
  store.filter (fun e => decide (e.kind = kind) && entityMatches e search)

/-- Boolean form of "the request body carries a discriminator that is a key of
the active schema mapping". -/
def indexInMapping (body : Dict) : Bool :=
  match dget body "index" with
  | some (Val.str s) => coreRequestMapping.contains s
  | _ => false

/-! Concrete fixtures used by the witnesses and counterexamples. -/

/-- Services whose operations all succeed with an opaque result. -/
def okS : Services where
  exec := fun _ _ => Except.ok (Val.str "ok")
  execAccess := fun _ _ _ => Except.ok (Val.str "ok")
  linkLoad := fun d => Except.ok d
  req := fun _ => []
  display := fun _ _ => Except.ok (Val.tags [])

/-- Services whose operations raise an unclassified error. -/
def errS : Services where
  exec := fun _ _ => Except.error Exc.other
  execAccess := fun _ _ _ => Except.error Exc.other
  linkLoad := fun d => Except.ok d
  req := fun _ => []
  display := fun _ _ => Except.error Exc.other

/-- Services whose operations raise a marshmallow `ValidationError`. -/
def valS : Services where
  exec := fun _ _ => Except.error (Exc.validationError [("name", ["Missing data for required field."])])
  execAccess := fun _ _ _ => Except.error (Exc.validationError [("name", ["Missing data for required field."])])
  linkLoad := fun d => Except.ok d
  req := fun _ => []
  display := fun _ _ => Except.error (Exc.validationError [("name", ["Missing data for required field."])])

/-- Services instantiating the abstract required-keyword-parameter sets of the
`**d`-unpacked coroutines with concrete choices (the real signatures live in
`app/service/rest_svc.py`, outside the analyzed sources; the dispatcher's
behavior is quantified over them in the theorems, these lists only provide an
instance). -/
def taskS : Services where
  exec := fun _ _ => Except.ok (Val.str "ok")
  execAccess := fun _ _ _ => Except.ok (Val.str "ok")
  linkLoad := fun d => Except.ok d
  req := fun h =>
    match h with
    | Handler.task_agent_with_ability => ["paw", "ability_id"]
    | Handler.update_operation => ["op_id"]
    | Handler.get_potential_links => ["op_id", "paw"]
    | _ => []
  display := fun _ _ => Except.ok (Val.tags [])

/-- A validate oracle that accepts every payload. -/
def noValidate : String → Dict → Option Msgs := fun _ _ => none

/-- Body of spec Example 3: a discriminator with no schema entry. -/
def body_unknown : Dict := [("index", Val.str "unknown_kind")]

/-- Body of spec Example 2: an explicitly registered `(POST, task)` command. -/
def body_task_full : Dict :=
  [("index", Val.str "task"), ("ability_id", Val.str "a1"), ("paw", Val.str "p1")]

/-- A task command missing every required keyword parameter. -/
def body_task : Dict := [("index", Val.str "task")]

/-- A task command still missing the required `ability_id` parameter. -/
def body_task2 : Dict := [("index", Val.str "task"), ("paw", Val.str "p1")]

/-- A read-style body whose caller also tries to spoof the `access` filter. -/
def body_spoof : Dict := [("index", Val.str "agents"), ("access", Val.str "blue")]

/-- A GET body naming a kind that does have registered non-GET routes. -/
def body_agents : Dict := [("index", Val.str "agents")]

/-- A GET body with an extra field. -/
def body_ops : Dict := [("index", Val.str "operations"), ("name", Val.str "op1")]

/-- A delete command body with an extra field. -/
def body_del : Dict := [("index", Val.str "agents"), ("paw", Val.str "p7")]

/-- An entity visible only under the scope `blue`. -/
def secretEntity : Entity where
  kind := "agents"
  access := ["blue"]
  fields := []

/-! Helper lemmas shared by the claim theorems. -/

/-- The `except` clauses of `rest_core` change the outcome, never the list of
observable events of the `try` block. -/
theorem rest_core_snd (S : Services) (m : Method) (body : Dict) (perms : List String) :
    (rest_core S m body perms).2 = (tryBody S m body perms).2 := by
  unfold rest_core
  rcases h : tryBody S m body perms with ⟨r, evs⟩
  rcases r with e | v
  · cases e <;> rfl
  · rfl

/-- Computation of the `try` block when the discriminator hits a registered
route: the matching lambda is applied to the popped payload, once. -/
theorem tryBody_registered (S : Services) (m : Method)
    (tbl : List (String × Handler × Adapter)) (s : String) (h : Handler) (a : Adapter)
    (body : Dict) (perms : List String)
    (hb : options (accessDict perms) m = some tbl)
    (hl : assocLookup tbl s = some (h, a))
    (hi : dget body "index" = some (Val.str s)) :
    tryBody S m body perms =
      (runAdapter S (accessDict perms) h a (derase body "index"),
       [Ev.handlerCalled h (derase body "index")]) := by
  unfold tryBody routeAndRun
  rw [hi, hb]
  show (match assocLookup tbl s with
    | none =>
        (S.display (Val.str s) (dmerge (derase body "index") (accessDict perms)),
         [Ev.fallbackCalled (Val.str s) (dmerge (derase body "index") (accessDict perms))])
    | some (h, a) =>
        (runAdapter S (accessDict perms) h a (derase body "index"),
         [Ev.handlerCalled h (derase body "index")])) = _
  rw [hl]

/-- Computation of the `try` block when the verb has a table but the
discriminator misses it: the fallback query is issued with the merged search. -/
theorem tryBody_fallback (S : Services) (m : Method)
    (tbl : List (String × Handler × Adapter)) (s : String)
    (body : Dict) (perms : List String)
    (hb : options (accessDict perms) m = some tbl)
    (hl : assocLookup tbl s = none)
    (hi : dget body "index" = some (Val.str s)) :
    tryBody S m body perms =
      (S.display (Val.str s) (dmerge (derase body "index") (accessDict perms)),
       [Ev.fallbackCalled (Val.str s) (dmerge (derase body "index") (accessDict perms))]) := by
  unfold tryBody routeAndRun
  rw [hi, hb]
  show (match assocLookup tbl s with
    | none =>
        (S.display (Val.str s) (dmerge (derase body "index") (accessDict perms)),
         [Ev.fallbackCalled (Val.str s) (dmerge (derase body "index") (accessDict perms))])
    | some (h, a) =>
        (runAdapter S (accessDict perms) h a (derase body "index"),
         [Ev.handlerCalled h (derase body "index")])) = _
  rw [hl]

/-- Merge lookup, overriding side: a key present in `d2` reads from `d2`. -/
theorem dget_dmerge_right (d1 d2 : Dict) (k : String) (v : Val)
    (h : dget d2 k = some v) : dget (dmerge d1 d2) k = some v := by
  induction d1 with
  | nil => simpa [dmerge, dget] using h
  | cons p t ih =>
      rcases p with ⟨k1, v1⟩
      by_cases hk : (dget d2 k1).isNone
      · have hne : k1 ≠ k := by
          intro he
          rw [he, h] at hk
          simp at hk
        simpa [dmerge, dget, hk, hne] using ih
      · simpa [dmerge, dget, hk] using ih

/-- Merge lookup, transparent side: a key absent from `d2` reads from `d1`. -/
theorem dget_dmerge_left (d1 d2 : Dict) (k : String)
    (h : dget d2 k = none) : dget (dmerge d1 d2) k = dget d1 k := by
  induction d1 with
  | nil => simp [dmerge, dget, h]
  | cons p t ih =>
      rcases p with ⟨k1, v1⟩
      by_cases hne : k1 = k
      · subst hne
        have hk : (dget d2 k1).isNone := by simp [h]
        simp [dmerge, dget, hk]
      · by_cases hk : (dget d2 k1).isNone
        · simpa [dmerge, dget, hk, hne] using ih
        · simpa [dmerge, dget, hk, hne] using ih

/-- Popping one key leaves every other key's lookup unchanged. -/
theorem dget_derase (d : Dict) (i k : String) (h : k ≠ i) :
    dget (derase d i) k = dget d k := by
  induction d with
  | nil => rfl
  | cons p t ih =>
      rcases p with ⟨k1, v1⟩
      by_cases hi : k1 = i
      · simp [derase, dget, hi, Ne.symm h, ih]
      · by_cases hk : k1 = k
        · simp [derase, dget, hi, hk, h]
        · simp [derase, dget, hi, hk, ih]

/-! Claim theorems. -/

/-- C2: for every `(verb, discriminator)` pair registered in the routing
table, dispatching a request with exactly that verb and that `index` value
applies the lambda registered for that pair to the popped payload exactly
once — the event trace is that single invocation, so no other handler and not
the fallback resolver runs. -/
theorem rest_core_registered_pair_invokes_its_handler (S : Services) (m : Method)
    (tbl : List (String × Handler × Adapter)) (s : String) (h : Handler) (a : Adapter)
    (body : Dict) (perms : List String)
    (hb : options (accessDict perms) m = some tbl)
    (hl : assocLookup tbl s = some (h, a))
    (hi : dget body "index" = some (Val.str s)) :
    (rest_core S m body perms).2 = [Ev.handlerCalled h (derase body "index")] := by
  rw [rest_core_snd, tryBody_registered S m tbl s h a body perms hb hl hi]

/-- Witness for C2 at spec Example 2: `POST` with `index = task` invokes
`rest_svc.task_agent_with_ability` and nothing else. -/
theorem rest_core_registered_pair_invokes_its_handler_witness :
    options (accessDict ["red"]) Method.POST = some postTable
    ∧ assocLookup postTable "task" = some (Handler.task_agent_with_ability, Adapter.kwargs)
    ∧ dget body_task_full "index" = some (Val.str "task")
    ∧ (rest_core okS Method.POST body_task_full ["red"]).2
        = [Ev.handlerCalled Handler.task_agent_with_ability (derase body_task_full "index")] :=
  ⟨rfl, by decide, by decide,
   rest_core_registered_pair_invokes_its_handler okS Method.POST postTable "task"
     Handler.task_agent_with_ability Adapter.kwargs body_task_full ["red"]
     rfl (by decide) (by decide)⟩

/-- C10: the per-request `options` dict has no entry for the `GET` verb, so on
every `GET` request reaching the `rest_core` body the subscript
`options[request.method]` raises `KeyError('GET')` before any routing
decision; neither a registered handler nor the fallback resolver executes, and
the request ends in the blanket `except Exception` clause — logged, with no
structured response body. -/
theorem rest_core_get_method_keyerror_generic_path (S : Services) (body : Dict)
    (ix : Val) (perms : List String)
    (hi : dget body "index" = some ix) :
    options (accessDict perms) Method.GET = none
    ∧ rest_core S Method.GET body perms = (Outcome.loggedNoBody (Exc.keyError "GET"), []) := by
  refine ⟨rfl, ?_⟩
  unfold rest_core tryBody
  rw [hi]
  rfl

/-- Witness for C10 at a concrete `GET` request. -/
theorem rest_core_get_method_keyerror_generic_path_witness :
    dget body_ops "index" = some (Val.str "operations")
    ∧ (options (accessDict ["blue"]) Method.GET = none
       ∧ rest_core okS Method.GET body_ops ["blue"]
           = (Outcome.loggedNoBody (Exc.keyError "GET"), [])) :=
  ⟨by decide,
   rest_core_get_method_keyerror_generic_path okS body_ops (Val.str "operations") ["blue"]
     (by decide)⟩

/-- C4 (evaluation at the failing input): a `GET` with `index = agents` — a
kind with no registered `GET` route, for which the claim and the endpoint's
own apidocs (`methods=['GET', 'POST', 'PUT']`) prescribe the fallback listing
— instead raises `KeyError('GET')`, which the blanket `except` clause logs;
the fallback resolver is never called (empty event trace) and no response body
is produced. -/
theorem rest_core_get_agents_keyerror_no_fallback :
    rest_core okS Method.GET body_agents ["red"]
      = (Outcome.loggedNoBody (Exc.keyError "GET"), []) := by
  decide

/-- C8 (spec-modelled authorization stage): when the caller's credentials are
missing or invalid the pipeline stops at the 401 with an empty event trace —
the body is never decoded, no routing lookup happens, and no handler or
fallback executes. -/
theorem dispatch_auth_failure_short_circuits (S : Services)
    (validate : String → Dict → Option Msgs) (m : Method) (body : Dict) :
    dispatch S validate none m body = (PipeOutcome.unauthorized, []) := rfl

/-- C1 (spec-modelled decode stage): for every request whose body's
discriminator is absent or not a key of the active polymorphic schema
mapping, the pipeline fails at the decode stage with a validation error
surfaced as HTTP 400 carrying per-field detail on `index`, and the event
trace shows that no handler — neither a registered one nor the fallback
resolver — executes. -/
theorem dispatch_unknown_discriminator_is_400 (S : Services)
    (validate : String → Dict → Option Msgs) (perms : List String) (m : Method)
    (body : Dict) (h : indexInMapping body = false) :
    ∃ r, dispatch S validate (some perms) m body
        = (PipeOutcome.validationFailed [("index", [r])], [Ev.decodeAttempted]) := by
  unfold indexInMapping at h
  have hd : ∃ r, decodeCoreRequest validate body = some [("index", [r])] := by
    unfold decodeCoreRequest
    cases hg : dget body "index" with
    | none => exact ⟨missingIndexMsg, rfl⟩
    | some v =>
        rw [hg] at h
        cases v with
        | str s =>
            refine ⟨unknownIndexMsg, ?_⟩
            simp only [] at h
            show (if coreRequestMapping.contains s then validate s body
                  else some [("index", [unknownIndexMsg])]) = some [("index", [unknownIndexMsg])]
            rw [h, if_neg Bool.false_ne_true]
        | tags ts => exact ⟨unknownIndexMsg, rfl⟩
  rcases hd with ⟨r, hr⟩
  refine ⟨r, ?_⟩
  unfold dispatch
  rw [hr]

/-- Witness for C1 at spec Example 3: a `GET` with `index = unknown_kind`
(no schema entry) ends as a 400 validation error, not as a listing. -/
theorem dispatch_unknown_discriminator_is_400_witness :
    indexInMapping body_unknown = false
    ∧ ∃ r, dispatch okS noValidate (some ["red"]) Method.GET body_unknown
        = (PipeOutcome.validationFailed [("index", [r])], [Ev.decodeAttempted]) :=
  ⟨by decide,
   dispatch_unknown_discriminator_is_400 okS noValidate ["red"] Method.GET body_unknown
     (by decide)⟩

/-- C5: any exception of the `try` block other than `ma.ValidationError` — in
particular any unanticipated error raised while a handler executes — is caught
by the blanket `except Exception` clause: it is logged, the event trace is
left as it was (the handler ran exactly once, no retry), and the request
terminates without any structured error body. -/
theorem rest_core_nonvalidation_error_logged_no_body (S : Services) (m : Method)
    (body : Dict) (perms : List String) (e : Exc) (evs : List Ev)
    (ht : tryBody S m body perms = (Except.error e, evs))
    (hv : ∀ msgs, e ≠ Exc.validationError msgs) :
    rest_core S m body perms = (Outcome.loggedNoBody e, evs) := by
  unfold rest_core
  rw [ht]
  cases e with
  | validationError msgs => exact absurd rfl (hv msgs)
  | keyError k => rfl
  | typeError => rfl
  | other => rfl

/-- Witness for C5: a `DELETE agents` whose operation raises an unclassified
error ends logged, with the handler having run once and no body returned. -/
theorem rest_core_nonvalidation_error_logged_no_body_witness :
    tryBody errS Method.DELETE body_del ["red"]
        = (Except.error Exc.other, [Ev.handlerCalled Handler.delete_agent (derase body_del "index")])
    ∧ (∀ msgs, Exc.other ≠ Exc.validationError msgs)
    ∧ rest_core errS Method.DELETE body_del ["red"]
        = (Outcome.loggedNoBody Exc.other, [Ev.handlerCalled Handler.delete_agent (derase body_del "index")]) :=
  ⟨rfl, fun _ hh => Exc.noConfusion hh,
   rest_core_nonvalidation_error_logged_no_body errS Method.DELETE body_del ["red"]
     Exc.other [Ev.handlerCalled Handler.delete_agent (derase body_del "index")]
     rfl (fun _ hh => Exc.noConfusion hh)⟩

/-- C6: whenever the `try` block of `rest_core` raises a marshmallow
`ValidationError`, the dispatcher answers `HTTPBadRequest` (400) whose JSON
body is exactly `e.messages`, the map from each violated field name to its
list of error messages, and nothing else. -/
theorem rest_core_validation_error_yields_400 (S : Services) (m : Method)
    (body : Dict) (perms : List String) (msgs : Msgs) (evs : List Ev)
    (ht : tryBody S m body perms = (Except.error (Exc.validationError msgs), evs)) :
    rest_core S m body perms = (Outcome.badRequest msgs, evs) := by
  unfold rest_core
  rw [ht]

/-- Witness for C6: a `DELETE agents` whose operation raises
`ValidationError` with a one-field detail ends as a 400 carrying exactly it. -/
theorem rest_core_validation_error_yields_400_witness :
    tryBody valS Method.DELETE body_del ["red"]
        = (Except.error (Exc.validationError [("name", ["Missing data for required field."])]),
           [Ev.handlerCalled Handler.delete_agent (derase body_del "index")])
    ∧ rest_core valS Method.DELETE body_del ["red"]
        = (Outcome.badRequest [("name", ["Missing data for required field."])],
           [Ev.handlerCalled Handler.delete_agent (derase body_del "index")]) :=
  ⟨rfl,
   rest_core_validation_error_yields_400 valS Method.DELETE body_del ["red"]
     [("name", ["Missing data for required field."])]
     [Ev.handlerCalled Handler.delete_agent (derase body_del "index")] rfl⟩

/-- C7: the command routing table maps every `(verb, discriminator)` key to at
most one handler (per-verb key lists are duplicate-free), and although the
source rebuilds the `options` dict inside every call to `rest_core`, the table
built is independent of the per-request access value — the same keys mapped to
the same underlying operations for every request dispatched. -/
theorem options_table_unique_keys_and_request_independent :
    (∀ (a : Dict) (m : Method) (tbl : List (String × Handler × Adapter)),
        options a m = some tbl → (tbl.map Prod.fst).Nodup)
    ∧ ∀ (a1 a2 : Dict), options a1 = options a2 := by
  constructor
  · intro a m tbl h
    cases m with
    | GET => exact Option.noConfusion h
    | DELETE =>
        injection h with h2
        rw [← h2]
        decide
    | PUT =>
        injection h with h2
        rw [← h2]
        decide
    | POST =>
        injection h with h2
        rw [← h2]
        decide
  · intro a1 a2
    funext m
    cases m <;> rfl

/-- Witness for C7 at the `PUT` table and two distinct access values. -/
theorem options_table_unique_keys_and_request_independent_witness :
    options [] Method.PUT = some putTable
    ∧ (putTable.map Prod.fst).Nodup
    ∧ options (accessDict ["red"]) = options [] :=
  ⟨rfl,
   options_table_unique_keys_and_request_independent.1 [] Method.PUT putTable rfl,
   options_table_unique_keys_and_request_independent.2 (accessDict ["red"]) []⟩

/-- C9 counterexample: dispatching `POST` with `index = task` and a payload
missing the required keyword parameters of the underlying operation does not
produce a `SchemaValidationError`/400 — the `**d` unpacking raises
`TypeError`, which falls into the blanket `except` clause: logged, no
structured body. -/
theorem rest_core_missing_kwarg_not_validation_400 :
    dget body_task "ability_id" = none
    ∧ rest_core taskS Method.POST body_task ["red"]
        = (Outcome.loggedNoBody Exc.typeError,
           [Ev.handlerCalled Handler.task_agent_with_ability []])
    ∧ ∀ msgs, (rest_core taskS Method.POST body_task ["red"]).1 ≠ Outcome.badRequest msgs := by
  have h2 : rest_core taskS Method.POST body_task ["red"]
      = (Outcome.loggedNoBody Exc.typeError,
         [Ev.handlerCalled Handler.task_agent_with_ability []]) := by decide
  refine ⟨rfl, h2, ?_⟩
  intro msgs hh
  rw [h2] at hh
  exact Outcome.noConfusion hh

/-- C9 as amended: for every registered `**d`-unpacked route, dispatching a
payload missing a required keyword parameter of the underlying operation makes
the call raise `TypeError`; the blanket `except` clause logs it and the
request ends with no structured error body (the handler lambda having been
applied exactly once). -/
theorem rest_core_missing_kwarg_typeerror_logged (S : Services) (m : Method)
    (tbl : List (String × Handler × Adapter)) (s : String) (h : Handler)
    (body : Dict) (perms : List String) (r : String)
    (hb : options (accessDict perms) m = some tbl)
    (hl : assocLookup tbl s = some (h, Adapter.kwargs))
    (hi : dget body "index" = some (Val.str s))
    (hr : r ∈ S.req h)
    (hm : dget (derase body "index") r = none) :
    rest_core S m body perms
      = (Outcome.loggedNoBody Exc.typeError,
         [Ev.handlerCalled h (derase body "index")]) := by
  have hany : (S.req h).any (fun q => (dget (derase body "index") q).isNone) = true :=
    List.any_eq_true.2 ⟨r, hr, by rw [hm]; rfl⟩
  have ht : tryBody S m body perms
      = (Except.error Exc.typeError, [Ev.handlerCalled h (derase body "index")]) := by
    rw [tryBody_registered S m tbl s h Adapter.kwargs body perms hb hl hi]
    unfold runAdapter
    rw [if_pos hany]
  unfold rest_core
  rw [ht]

/-- Witness for the amended C9: `POST task` with `paw` supplied but
`ability_id` missing ends logged with a `TypeError`, not a 400. -/
theorem rest_core_missing_kwarg_typeerror_logged_witness :
    options (accessDict ["red"]) Method.POST = some postTable
    ∧ assocLookup postTable "task" = some (Handler.task_agent_with_ability, Adapter.kwargs)
    ∧ dget body_task2 "index" = some (Val.str "task")
    ∧ "ability_id" ∈ taskS.req Handler.task_agent_with_ability
    ∧ dget (derase body_task2 "index") "ability_id" = none
    ∧ rest_core taskS Method.POST body_task2 ["red"]
        = (Outcome.loggedNoBody Exc.typeError,
           [Ev.handlerCalled Handler.task_agent_with_ability (derase body_task2 "index")]) :=
  ⟨rfl, by decide, by decide, by decide, by decide,
   rest_core_missing_kwarg_typeerror_logged taskS Method.POST postTable "task"
     Handler.task_agent_with_ability body_task2 ["red"] "ability_id"
     rfl (by decide) (by decide) (by decide) (by decide)⟩

/-- C3: every request reaching the fallback path issues exactly one
`display_objects(index, search)` query whose criteria are the caller's payload
minus `index`, merged with the server-derived access scope, the scope taking
precedence over any caller-supplied `access` field; consequently (for the
spec-modelled scope-filtered query service) an entity not visible under the
caller's scope — in particular one visible only under the disjoint scope of
another caller — is never returned through this path, regardless of the
filter fields supplied. -/
theorem fallback_search_scoped_and_isolated (S : Services) (m : Method)
    (tbl : List (String × Handler × Adapter)) (s : String) (body : Dict)
    (perms : List String) (store : List Entity) (e : Entity) (scope2 : List String)
    (hb : options (accessDict perms) m = some tbl)
    (hi : dget body "index" = some (Val.str s))
    (hl : assocLookup tbl s = none)
    (hvis1 : visibleTo e perms = false)
    (hdisj : ∀ t ∈ perms, t ∉ scope2)
    (hvis2 : visibleTo e scope2 = true) :
    (rest_core S m body perms).2
        = [Ev.fallbackCalled (Val.str s) (dmerge (derase body "index") (accessDict perms))]
    ∧ dget (dmerge (derase body "index") (accessDict perms)) "access"
        = some (Val.tags perms)
    ∧ (∀ k, k ≠ "access" → k ≠ "index" →
        dget (dmerge (derase body "index") (accessDict perms)) k = dget body k)
    ∧ e ∉ display_objects store s (dmerge (derase body "index") (accessDict perms)) := by
  refine ⟨?_, ?_, ?_, ?_⟩
  · rw [rest_core_snd, tryBody_fallback S m tbl s body perms hb hl hi]
  · exact dget_dmerge_right _ _ _ _ rfl
  · intro k hka hki
    have hacc : dget (accessDict perms) k = none := by
      unfold accessDict dget
      rw [if_neg (Ne.symm hka)]
      rfl
    rw [dget_dmerge_left _ _ _ hacc, dget_derase _ _ _ hki]
  · intro hmem
    have hm2 := List.mem_filter.1 hmem
    have hmatch : entityMatches e (dmerge (derase body "index") (accessDict perms)) = true := by
      have hb2 := hm2.2
      rw [Bool.and_eq_true] at hb2
      exact hb2.2
    have hpair : ("access", Val.tags perms)
        ∈ dmerge (derase body "index") (accessDict perms) := by
      unfold dmerge accessDict
      exact List.mem_append.2 (Or.inr (List.mem_singleton.2 rfl))
    have hone := (List.all_eq_true.1 hmatch) _ hpair
    have hone2 : visibleTo e perms = true := by
      unfold matchOne at hone
      rw [if_pos rfl] at hone
      exact hone
    rw [hvis1] at hone2
    exact Bool.noConfusion hone2

/-- Witness for C3: caller `red` issuing a `POST agents` listing with a
spoofed `access` filter never sees an entity visible only under `blue`. -/
theorem fallback_search_scoped_and_isolated_witness :
    options (accessDict ["red"]) Method.POST = some postTable
    ∧ dget body_spoof "index" = some (Val.str "agents")
    ∧ assocLookup postTable "agents" = none
    ∧ visibleTo secretEntity ["red"] = false
    ∧ (∀ t ∈ (["red"] : List String), t ∉ (["blue"] : List String))
    ∧ visibleTo secretEntity ["blue"] = true
    ∧ ((rest_core okS Method.POST body_spoof ["red"]).2
        = [Ev.fallbackCalled (Val.str "agents")
             (dmerge (derase body_spoof "index") (accessDict ["red"]))]
       ∧ dget (dmerge (derase body_spoof "index") (accessDict ["red"])) "access"
           = some (Val.tags ["red"])
       ∧ (∀ k, k ≠ "access" → k ≠ "index" →
           dget (dmerge (derase body_spoof "index") (accessDict ["red"])) k = dget body_spoof k)
       ∧ secretEntity ∉ display_objects [secretEntity] "agents"
             (dmerge (derase body_spoof "index") (accessDict ["red"]))) :=
  ⟨rfl, by decide, by decide, by decide, by decide, by decide,
   fallback_search_scoped_and_isolated okS Method.POST postTable "agents" body_spoof
     ["red"] [secretEntity] secretEntity ["blue"]
     rfl (by decide) (by decide) (by decide) (by decide) (by decide)⟩

end Caldera

